import Mathlib

/-!
Verification of the zerde-serverless-bot worker against its specification.

The development shallowly embeds the Python sources of the worker Lambda
(src/worker): the execution context (core/context.py), the dispatcher
(core/dispatcher.py), the handlers (services/handlers.py) and the vote
repository (repositories/vote_repository.py).  Side effects performed through
the Telegram client, the SQS queue and the DynamoDB tables are recorded as an
explicit effect trace; DynamoDB conditional updates are modelled as atomic
steps on the stored item; Python exceptions are modelled with an explicit
error type.  Python attribute lookup matters here: several handlers access
attributes that the corresponding classes never define, so the sets of
attributes actually defined by context.py and telegram_client.py are part of
the embedding.
-/

namespace Zerde

/-- Result of bot.get_chat_member as read by the worker handlers: the
status string and the can_send_messages flag; a field absent from the API
response is none (the Python code reads them with dict.get). -/
structure MemberInfo where
  status : Option String
  can_send_messages : Option Bool
deriving DecidableEq

/-- Payload of a CHECK_TIMEOUT task, read with task_data.get in
process_timeout_task (handlers.py lines 38-40); missing keys are none. -/
structure TimeoutTask where
  chat_id : Option Int
  user_id : Option Int
  message_id : Option Int
deriving DecidableEq

/-- A localized text produced by get_translated_text is modelled by its
translation key; literal Python strings are kept verbatim. -/
inductive MsgText where
  | translated (key : String)
  | raw (s : String)
deriving DecidableEq

/-- One observable side effect of the worker: a Telegram API call, an SQS
enqueue, a DynamoDB counter update, or a log line.  Inline-keyboard markup is
recorded as the rows of callback_data payloads of its buttons (the button
captions play no role in any property).  createChallengeRecord is the
state-store write the specification calls creating the VerificationChallenge
record; it is part of the vocabulary so that the specification claim can be
stated, and the reader can check that no embedded handler emits it. -/
inductive Effect where
  | restrictMember (chat : Option Int) (user : Option Int) (perms : List (String × Bool))
  | sendMessage (chat : Option Int) (text : MsgText) (markup : Option (List (List String)))
  | answerCallback (cbId : Option String) (text : Option MsgText) (alert : Bool)
  | deleteMessage (chat : Option Int) (msg : Int)
  | banMember (chat : Option Int) (user : Option Int)
  | editMessageText (chat : Option Int) (msg : Int) (text : MsgText)
      (markup : Option (List (List String)))
  | enqueueTimeout (chat : Option Int) (user : Option Int) (msg : Int) (delaySeconds : Nat)
  | incrementTotalJoins (chat : Option Int)
  | incrementVerifiedUsers (chat : Option Int)
  | createChallengeRecord (chat : Option Int) (user : Option Int)
  | logWarn (s : String)
  | logError (s : String)
deriving DecidableEq

/-- A Python exception as far as the worker distinguishes them. -/
inductive PyErr where
  | typeError (msg : String)
  | attributeError (attr : String)
deriving DecidableEq

/-- Python truthiness of an integer-or-None value: None and 0 are falsy. -/
def truthyIntOpt : Option Int → Bool
  | some n => n != 0
  | none => false

/-- Python truthiness of a string-or-None value: None and the empty string
are falsy. -/
def truthyStrOpt : Option String → Bool
  | some s => s != ""
  | none => false

/-- Python str() of an integer-or-None value as interpolated by f-strings. -/
def strOfIntOpt : Option Int → String
  | some n => toString n
  | none => "None"

/-- The methods telegram_client.py defines on TelegramClient (its complete
def list).  There is no kick_chat_member among them, although
handlers.py lines 53 and 235 call bot.kick_chat_member. -/
def telegramClientMethods : List String :=
  ["send_message", "answer_callback_query", "restrict_chat_member", "edit_message_text",
   "ban_chat_member", "unban_chat_member", "get_chat_member", "delete_message"]

/-- The attributes context.py defines on Context objects: the instance
attributes assigned in Context.init (context.py lines 27-55), the property
names (lines 57-78) and the reply method (line 80).  handlers.py also
accesses ctx.vote_repo (line 193) and ctx.reply_to_message (lines 435, 440,
508), neither of which appears here, so those accesses raise AttributeError. -/
def contextAttrs : List String :=
  ["_update", "_bot", "stats_repo", "sqs_repo",
   "callback_query", "callback_query_id", "callback_data", "message", "chat_id", "user_data",
   "text", "args",
   "user_id", "username", "first_name", "lang_code", "message_id", "reply"]

/-- The names worker/services/init.py assigns at module level (its complete
export list).  handlers.py line 11 imports VERIFY_PREFIX together with four
VOTEBAN names that do not appear here. -/
def workerServicesExports : List String :=
  ["os", "DEFAULT_LANG", "TELEGRAM_API_BASE", "BOT_TOKEN", "WEBHOOK_SECRET_TOKEN",
   "BOT_NAME", "BOT_DESCRIPTION", "BOT_INSTRUCTIONS", "VERIFY_PREFIX"]

/-- The names handlers.py imports from the services package (lines 11-17). -/
def handlersServicesImports : List String :=
  ["VERIFY_PREFIX", "VOTEBAN_AGAINST_PREFIX", "VOTEBAN_FOR_PREFIX",
   "VOTEBAN_FORGIVE_THRESHOLD", "VOTEBAN_THRESHOLD"]

/-- Python str.lower() for the ASCII strings the Telegram API produces
(member status strings), written over the character list so that it
evaluates inside proofs. -/
def pyLower (s : String) : String :=
  String.mk (s.data.map Char.toLower)

/-- The member statuses process_timeout_task treats as verified
(handlers.py line 49). -/
def verifiedStatuses : List String := ["member", "administrator", "creator"]

/-- The condition at handlers.py lines 46-49 deciding that the member is
already verified: lowercased status is member, administrator or creator, or
can_send_messages (defaulting to True when absent) is true. -/
def verifiedReadB (m : MemberInfo) : Bool :=
  decide (pyLower (m.status.getD "") ∈ verifiedStatuses) || m.can_send_messages.getD true

/-- process_timeout_task (handlers.py lines 34-61).  member is the result of
the live bot.get_chat_member call at line 45; the function takes no stored
record of any kind, only the task payload and that live read.  On the
not-verified branch, line 53 calls bot.kick_chat_member: telegram_client.py
defines no such method (telegramClientMethods), so the attribute lookup
raises AttributeError, which the except at lines 59-60 logs; the kick and
the subsequent best-effort delete_message at line 55 are never performed.
The guarded banMember branch mirrors the call site and is unreachable. -/
def process_timeout_task (member : MemberInfo) (task : TimeoutTask) : List Effect :=
  match task.chat_id, task.user_id, task.message_id with
  | some chat, some user, some _msg =>
      if verifiedReadB member then
        []
      else
        if "kick_chat_member" ∈ telegramClientMethods then
          [Effect.banMember (some chat) (some user)]
        else
          [Effect.logError "Timeout task error"]
  | _, _, _ => [Effect.logWarn "Timeout task missing chat_id/user_id/message_id"]

/-- Number of kick calls (banMember effects) in a trace. -/
def countKicks (effs : List Effect) : Nat :=
  (effs.filter fun e =>
    match e with
    | Effect.banMember _ _ => true
    | _ => false).length

/-- Number of delete_message calls in a trace. -/
def countDeletes (effs : List Effect) : Nat :=
  (effs.filter fun e =>
    match e with
    | Effect.deleteMessage _ _ => true
    | _ => false).length

/-- Repeated deliveries of the same timeout task: one call of
process_timeout_task per element of reads, each with its own live
get_chat_member result. -/
def runTimeoutCalls (reads : List MemberInfo) (task : TimeoutTask) : List Effect :=
  (reads.map fun m => process_timeout_task m task).flatten

/-- C2: the claim says that processing a timeout task once for a member whose
live status is still muted performs exactly one kick and one best-effort
deletion of the challenge message.  Evaluating the embedded
process_timeout_task at such an input (status restricted, can_send_messages
false, a complete task payload) shows the code instead logs the
AttributeError raised by the missing TelegramClient.kick_chat_member and
performs zero kicks and zero deletions. -/
theorem timeout_muted_member_zero_kicks :
    process_timeout_task ⟨some "restricted", some false⟩ ⟨some 100, some 42, some 7⟩ =
        [Effect.logError "Timeout task error"] ∧
      countKicks (process_timeout_task ⟨some "restricted", some false⟩
        ⟨some 100, some 42, some 7⟩) = 0 ∧
      countDeletes (process_timeout_task ⟨some "restricted", some false⟩
        ⟨some 100, some 42, some 7⟩) = 0 ∧
      "kick_chat_member" ∉ telegramClientMethods := by
  refine ⟨rfl, rfl, rfl, ?_⟩
  decide

/-- C5: processing the timeout task any number of times for a member whose
live platform status indicates normal membership or messaging capability
produces no kick on any call; indeed each such call produces no effect at
all.  The handler decides from the live get_chat_member read alone —
process_timeout_task has no stored-record argument — so the property holds
for every sequence of live reads that all report a verified member. -/
theorem timeout_idempotent_for_verified (reads : List MemberInfo) (c u m : Int)
    (h : ∀ r ∈ reads, verifiedReadB r = true) :
    runTimeoutCalls reads ⟨some c, some u, some m⟩ = [] := by
  induction reads with
  | nil => rfl
  | cons r rs ih =>
      have hr : verifiedReadB r = true := h r (List.mem_cons_self r rs)
      have hrs : ∀ x ∈ rs, verifiedReadB x = true := fun x hx => h x (List.mem_cons_of_mem r hx)
      simp [runTimeoutCalls, process_timeout_task, hr] at ih ⊢
      exact ih hrs

/-- Witness for C5: two deliveries of the task for chat 100, user 42,
message 7; the first live read reports status member, the second reports a
restricted member whose can_send_messages is already true.  Both calls
produce no effect. -/
theorem timeout_idempotent_for_verified_witness :
    runTimeoutCalls [⟨some "member", none⟩, ⟨some "restricted", some true⟩]
        ⟨some 100, some 42, some 7⟩ = [] :=
  timeout_idempotent_for_verified
    [⟨some "member", none⟩, ⟨some "restricted", some true⟩] 100 42 7 (by decide)

/-- A Telegram user object, with the fields the worker reads. -/
structure TgUser where
  id : Option Int
  is_bot : Bool
  username : Option String
  first_name : Option String
  language_code : Option String
deriving DecidableEq

/-- A Telegram message object, with the fields the worker reads.  The chat id
is the nested message.chat.id.  A missing field is none; reading a field of a
missing nested dict yields none as well, matching the chained dict.get calls
in context.py. -/
structure TgMessage where
  message_id : Option Int
  chat_id : Option Int
  from_user : Option TgUser
  text : Option String
  new_chat_members : Option (List TgUser)
deriving DecidableEq

/-- The empty dict that context.py substitutes for a missing message. -/
def emptyMessage : TgMessage := ⟨none, none, none, none, none⟩

/-- A Telegram callback_query object, with the fields the worker reads. -/
structure TgCallbackQuery where
  id : Option String
  from_user : Option TgUser
  message : Option TgMessage
  data : Option String
deriving DecidableEq

/-- A raw Telegram update as delivered to the worker: presence of the
message and callback_query keys. -/
structure TgUpdate where
  message : Option TgMessage
  callback_query : Option TgCallbackQuery
deriving DecidableEq

/-- Python str.split() with no argument: split on runs of whitespace,
dropping empty pieces. -/
def pySplitWs (s : String) : List String :=
  (s.split fun c => c = ' ' ∨ c = '\t' ∨ c = '\n' ∨ c = '\r').filter fun p => p ≠ ""

/-- The state Context.init would build from an update (context.py lines
27-55): the callback_query branch when the update has one, otherwise the
message branch; text is the stripped message text and args the tokens after
a leading slash command. -/
structure Ctx where
  callback_query : Option TgCallbackQuery
  callback_query_id : Option String
  callback_data : String
  message : TgMessage
  chat_id : Option Int
  user_data : Option TgUser
  text : String
  args : List String
deriving DecidableEq

/-- Context.init body (context.py lines 27-55). -/
def buildCtx (update : TgUpdate) : Ctx :=
  match update.callback_query with
  | some cq =>
      let msg := cq.message.getD emptyMessage
      let text := (msg.text.getD "").trim
      ⟨some cq, cq.id, (cq.data.getD "").trim, msg, msg.chat_id, cq.from_user, text,
        if text ≠ "" ∧ text.startsWith "/" ∧ (pySplitWs text).length > 1 then
          (pySplitWs text).drop 1
        else []⟩
  | none =>
      let msg := update.message.getD emptyMessage
      let text := (msg.text.getD "").trim
      ⟨none, none, "", msg, msg.chat_id, msg.from_user, text,
        if text ≠ "" ∧ text.startsWith "/" ∧ (pySplitWs text).length > 1 then
          (pySplitWs text).drop 1
        else []⟩

/-- The positional parameters of Context.init after self
(context.py lines 20-26). -/
def contextInitParams : List String := ["update", "bot", "stats_repo", "sqs_repo"]

/-- The positional arguments Dispatcher.process_update passes to Context
(dispatcher.py line 77). -/
def processUpdateContextArgs : List String :=
  ["update", "self.bot", "self.stats_repo", "self.sqs_repo", "self.vote_repo"]

/-- The Python TypeError message for the call at dispatcher.py line 77. -/
def contextArityErrorMsg : String :=
  "Context.init takes from 3 to 5 positional arguments but 6 were given"

/-- Python call binding for Context(update, self.bot, self.stats_repo,
self.sqs_repo, self.vote_repo) at dispatcher.py line 77: binding five
positional arguments against the four positional parameters of Context.init
raises TypeError before the constructor body runs. -/
def contextConstruction (update : TgUpdate) : Except PyErr Ctx :=
  if processUpdateContextArgs.length ≤ contextInitParams.length then
    Except.ok (buildCtx update)
  else
    Except.error (PyErr.typeError contextArityErrorMsg)

/-- A registered handler: from the context it receives, the effects it
performs and either normal return or the exception it raises.  Effects
performed before an exception are kept, as in Python. -/
def HandlerFn : Type := Ctx → List Effect × Except PyErr Unit

/-- The registries held by a Dispatcher (dispatcher.py lines 40-42); command
keys are stored with their leading slash. -/
structure DispatcherState where
  command_handlers : List (String × HandlerFn)
  new_chat_members_handler : Option HandlerFn
  callback_query_handler : Option HandlerFn

/-- Context.reply (context.py lines 80-86): sends only when the chat id is
truthy, and returns None. -/
def ctxReplyEffect (chat_id : Option Int) (text : MsgText)
    (markup : Option (List (List String))) : List Effect :=
  if truthyIntOpt chat_id then [Effect.sendMessage chat_id text markup] else []

/-- Running a handler under the try/except of dispatcher.py lines 83-87 and
93-97: an exception is logged and swallowed. -/
def runSwallow (h : HandlerFn) (ctx : Ctx) (who : String) : List Effect :=
  let r := h ctx
  match r.2 with
  | Except.ok _ => r.1
  | Except.error _ => r.1 ++ [Effect.logError ("Error in " ++ who ++ " handler")]

/-- The command-routing step of Dispatcher.process_update (dispatcher.py
lines 99-114): first whitespace token of the text, with any at-botname
suffix stripped, looked up case-sensitively in the registry; a handler
exception is logged and answered with the localized error reply; no match is
a no-op. -/
def routeCommands (d : DispatcherState) (ctx : Ctx) : List Effect × Except PyErr Unit :=
  let text := ctx.text
  if text ≠ "" ∧ text.startsWith "/" then
    let command_key := (((pySplitWs text).headD "").splitOn "@").headD ""
    match d.command_handlers.lookup command_key with
    | some h =>
        let r := h ctx
        match r.2 with
        | Except.ok _ => (r.1, Except.ok ())
        | Except.error _ =>
            (r.1 ++ [Effect.logError ("Error in command handler " ++ command_key)]
                ++ ctxReplyEffect ctx.chat_id (MsgText.translated "error_occurred") none,
              Except.ok ())
    | none => ([], Except.ok ())
  else ([], Except.ok ())

/-- Dispatcher.process_update (dispatcher.py lines 73-114).  The first
statement constructs the Context (line 77); only if that succeeds is the
routing chain entered: callback_query handler first, then new_chat_members,
then registered commands, then an explicit no-op.  The construction is
outside every try/except, so its exception propagates to the caller. -/
def process_update (d : DispatcherState) (update : TgUpdate) :
    List Effect × Except PyErr Unit :=
  match contextConstruction update with
  | Except.error e => ([], Except.error e)
  | Except.ok ctx =>
      match update.callback_query, d.callback_query_handler with
      | some _, some h => (runSwallow h ctx "callback_query", Except.ok ())
      | _, _ =>
          let msg := update.message.getD emptyMessage
          match (msg.new_chat_members.getD []).isEmpty, d.new_chat_members_handler with
          | false, some h => (runSwallow h ctx "new_chat_members", Except.ok ())
          | _, _ => routeCommands d ctx

/-- C10: dispatcher.py line 77 passes five positional arguments to Context
while Context.init accepts only four (update, bot, stats_repo, sqs_repo), so
for every dispatcher state and every update, process_update raises TypeError
at Context construction, performs no effect, and invokes no registered
handler. -/
theorem dispatcher_context_arity_mismatch :
    processUpdateContextArgs.length = 5 ∧ contextInitParams.length = 4 ∧
      ∀ (d : DispatcherState) (u : TgUpdate),
        process_update d u = ([], Except.error (PyErr.typeError contextArityErrorMsg)) :=
  ⟨rfl, rfl, fun _ _ => rfl⟩

/-- A callback handler that leaves a recognizable trace, for exercising the
routing code. -/
def probeCallbackHandler : HandlerFn := fun _ => ([Effect.logWarn "callback handler ran"], Except.ok ())

/-- A ping command handler in the style of handlers.py lines 426-428. -/
def probeCommandHandler : HandlerFn :=
  fun ctx => (ctxReplyEffect ctx.chat_id (MsgText.raw "Pong") none, Except.ok ())

/-- A dispatcher with both a callback handler and a ping command registered. -/
def probeDispatcher : DispatcherState :=
  ⟨[("/ping", probeCommandHandler)], none, some probeCallbackHandler⟩

/-- An update carrying both a callback payload and command-like text. -/
def mixedUpdate : TgUpdate :=
  ⟨some ⟨some 1, some 300, some ⟨some 7, false, none, none, none⟩, some "/ping", none⟩,
    some ⟨some "cb1", some ⟨some 7, false, none, none, none⟩,
      some ⟨some 1, some 300, some ⟨some 7, false, none, none, none⟩, some "/ping", none⟩,
      some "verify_7"⟩⟩

/-- C8: the claim says process_update routes every update to exactly one
handler by fixed precedence, with callback payloads winning over command
text; evaluating the embedded process_update on an update that carries both
a callback payload and command text, against a dispatcher with both handlers
registered, shows it instead raises TypeError at Context construction: the
callback handler is never invoked and no routing at all happens. -/
theorem process_update_mixed_update_unrouted :
    process_update probeDispatcher mixedUpdate =
        ([], Except.error (PyErr.typeError contextArityErrorMsg)) ∧
      Effect.logWarn "callback handler ran" ∉ (process_update probeDispatcher mixedUpdate).1 :=
  ⟨rfl, fun hmem => (List.not_mem_nil _) hmem⟩

/-- A command handler that raises, for exercising the dispatch boundary. -/
def raisingCommandHandler : HandlerFn :=
  fun _ => ([], Except.error (PyErr.attributeError "boom"))

/-- A dispatcher whose only registration is the raising /boom command. -/
def raisingDispatcher : DispatcherState :=
  ⟨[("/boom", raisingCommandHandler)], none, none⟩

/-- A plain command update for /boom in chat 300. -/
def boomUpdate : TgUpdate :=
  ⟨some ⟨some 2, some 300, some ⟨some 7, false, none, none, some "en"⟩, some "/boom", none⟩,
    none⟩

/-- C9: the claim says handler exceptions are caught at the dispatch
boundary and answered, on the command path, with a localized error reply.
Evaluating the embedded process_update on a /boom command whose registered
handler raises shows the handler is never reached: the TypeError from
Context construction propagates out of process_update (it sits outside every
try/except), and no error_occurred reply is ever sent. -/
theorem process_update_handler_errors_never_caught :
    process_update raisingDispatcher boomUpdate =
        ([], Except.error (PyErr.typeError contextArityErrorMsg)) ∧
      Effect.sendMessage (some 300) (MsgText.translated "error_occurred") none ∉
        (process_update raisingDispatcher boomUpdate).1 :=
  ⟨rfl, fun hmem => (List.not_mem_nil _) hmem⟩

/-- The vote-session item stored in DynamoDB by VoteRepository
(vote_repository.py lines 69-82): the votes are lists; the metadata
attributes are optional because an item created by a bare update_item on an
absent key (see addVoteUpdate) carries none of them. -/
structure VoteItem where
  target_user_id : Option Int
  message_id : Option Int
  initiator_user_id : Option Int
  initiator_username : Option String
  initiator_first_name : Option String
  target_username : Option String
  target_first_name : Option String
  votes_for : List Int
  votes_against : List Int
deriving DecidableEq

/-- VoteRepository.create_vote_session (vote_repository.py lines 54-85): the
item put for a new session, with the vote of the initiator pre-counted in
votes_for and votes_against empty. -/
def create_vote_session (target_user_id message_id initiator_user_id : Int)
    (initiator_username : Option String) (initiator_first_name : String)
    (target_username : Option String) (target_first_name : String) : VoteItem :=
  ⟨some target_user_id, some message_id, some initiator_user_id, initiator_username,
    some initiator_first_name, target_username, some target_first_name,
    [initiator_user_id], []⟩

/-- The votes_for attribute of a possibly-absent item; an absent item or
attribute reads as the empty list, as with item.get in get_vote_session. -/
def itemVotesFor : Option VoteItem → List Int
  | some it => it.votes_for
  | none => []

/-- The votes_against attribute of a possibly-absent item. -/
def itemVotesAgainst : Option VoteItem → List Int
  | some it => it.votes_against
  | none => []

/-- The item DynamoDB creates when update_item touches an absent key: only
the updated list attribute is present; every metadata attribute is absent. -/
def blankItem (vfor vagainst : List Int) : VoteItem :=
  ⟨none, none, none, none, none, none, none, vfor, vagainst⟩

/-- The atomic update_item of add_vote (vote_repository.py lines 109-127):
condition (NOT contains(votes_for, voter)) AND (NOT contains(votes_against,
voter)) evaluated on the current stored item — contains on an absent
attribute is false — and, when it holds, SET attr =
list_append(if_not_exists(attr, []), [voter]).  Returns the new item and
whether the update was applied; false models
ConditionalCheckFailedException. -/
def addVoteUpdate (cur : Option VoteItem) (voter : Int) (vote_for : Bool) :
    Option VoteItem × Bool :=
  if voter ∈ itemVotesFor cur ∨ voter ∈ itemVotesAgainst cur then
    (cur, false)
  else
    match cur with
    | some it =>
        if vote_for then
          (some ⟨it.target_user_id, it.message_id, it.initiator_user_id,
            it.initiator_username, it.initiator_first_name, it.target_username,
            it.target_first_name, it.votes_for ++ [voter], it.votes_against⟩, true)
        else
          (some ⟨it.target_user_id, it.message_id, it.initiator_user_id,
            it.initiator_username, it.initiator_first_name, it.target_username,
            it.target_first_name, it.votes_for, it.votes_against ++ [voter]⟩, true)
    | none =>
        if vote_for then (some (blankItem [voter] []), true)
        else (some (blankItem [] [voter]), true)

/-- The dict returned by VoteRepository.add_vote. -/
structure AddVoteResult where
  votes_for : Nat
  votes_against : Nat
  already_voted : Bool
deriving DecidableEq

/-- VoteRepository.add_vote (vote_repository.py lines 87-146) under
concurrency.  snap is the item seen by the get_vote_session read at line 99
and snapFail the one seen by the re-read at line 139 — under concurrent
callers either may be stale, so both are arbitrary; cur is the stored item
at the instant the atomic update_item at line 113 executes, the only point
where this call can change the store.  get_vote_session turns the stored
lists into sets, modelled by dedup.  Returns the new stored item and the
result dict: early return with already_voted when the first read already
contains the voter; otherwise the conditional update, whose failure
(already voted at the store) re-reads and reports already_voted. -/
def add_vote (snap snapFail cur : Option VoteItem) (voter : Int) (vote_for : Bool) :
    Option VoteItem × AddVoteResult :=
  if voter ∈ (itemVotesFor snap).dedup ∨ voter ∈ (itemVotesAgainst snap).dedup then
    (cur, ⟨(itemVotesFor snap).dedup.length, (itemVotesAgainst snap).dedup.length, true⟩)
  else
    match addVoteUpdate cur voter vote_for with
    | (newItem, true) =>
        (newItem, ⟨(itemVotesFor newItem).length, (itemVotesAgainst newItem).length, false⟩)
    | (_, false) =>
        (cur, ⟨(itemVotesFor snapFail).dedup.length,
          (itemVotesAgainst snapFail).dedup.length, true⟩)

/-- One add_vote call in an interleaved execution: the voter, the side, and
the two reads this call happens to see.  Leaving the reads arbitrary
over-approximates every interleaving of concurrent callers. -/
structure VoteCall where
  voter : Int
  vote_for : Bool
  snap : Option VoteItem
  snapFail : Option VoteItem
deriving DecidableEq

/-- The stored item after a sequence of add_vote calls, each one applying
its atomic update to the then-current item. -/
def runAddVotes (init : Option VoteItem) (calls : List VoteCall) : Option VoteItem :=
  calls.foldl (fun cur c => (add_vote c.snap c.snapFail cur c.voter c.vote_for).1) init

/-- The C1 invariant: no voter id occurs twice across the union of
votes_for and votes_against of the stored item. -/
abbrev votersNodup (it : Option VoteItem) : Prop :=
  (itemVotesFor it ++ itemVotesAgainst it).Nodup

theorem nodup_append_snoc_left {a b : List Int} {v : Int}
    (h : (a ++ b).Nodup) (hva : v ∉ a) (hvb : v ∉ b) : ((a ++ [v]) ++ b).Nodup := by
  rw [List.nodup_append] at h
  rw [List.nodup_append, List.nodup_append, List.disjoint_append_left]
  simp only [List.disjoint_singleton, List.singleton_disjoint, List.nodup_cons,
    List.not_mem_nil, not_false_iff, List.nodup_nil, and_true, true_and]
  tauto

theorem nodup_append_snoc_right {a b : List Int} {v : Int}
    (h : (a ++ b).Nodup) (hva : v ∉ a) (hvb : v ∉ b) : (a ++ (b ++ [v])).Nodup := by
  rw [List.nodup_append] at h
  rw [List.nodup_append, List.nodup_append, List.disjoint_append_right]
  simp only [List.disjoint_singleton, List.singleton_disjoint, List.nodup_cons,
    List.not_mem_nil, not_false_iff, List.nodup_nil, and_true, true_and]
  tauto

theorem addVoteUpdate_nodup (cur : Option VoteItem) (voter : Int) (b : Bool)
    (h : votersNodup cur) : votersNodup (addVoteUpdate cur voter b).1 := by
  unfold addVoteUpdate
  by_cases hm : voter ∈ itemVotesFor cur ∨ voter ∈ itemVotesAgainst cur
  · rw [if_pos hm]
    exact h
  · rw [if_neg hm]
    push_neg at hm
    obtain ⟨h1, h2⟩ := hm
    cases cur with
    | none =>
        cases b <;> simp [votersNodup, itemVotesFor, itemVotesAgainst, blankItem]
    | some it =>
        simp only [itemVotesFor, itemVotesAgainst] at h1 h2
        simp only [votersNodup, itemVotesFor, itemVotesAgainst] at h
        cases b with
        | true =>
            simpa [votersNodup, itemVotesFor, itemVotesAgainst] using
              nodup_append_snoc_left h h1 h2
        | false =>
            simpa [votersNodup, itemVotesFor, itemVotesAgainst] using
              nodup_append_snoc_right h h1 h2

theorem add_vote_fst_nodup (snap snapFail cur : Option VoteItem) (voter : Int) (b : Bool)
    (h : votersNodup cur) : votersNodup (add_vote snap snapFail cur voter b).1 := by
  unfold add_vote
  by_cases hs : voter ∈ (itemVotesFor snap).dedup ∨ voter ∈ (itemVotesAgainst snap).dedup
  · rw [if_pos hs]
    exact h
  · rw [if_neg hs]
    have hstep := addVoteUpdate_nodup cur voter b h
    rcases hupd : addVoteUpdate cur voter b with ⟨ni, applied⟩
    rw [hupd] at hstep
    cases applied with
    | true => simpa [hupd] using hstep
    | false => simpa [hupd] using h

theorem runAddVotes_nodup (calls : List VoteCall) :
    ∀ init : Option VoteItem, votersNodup init → votersNodup (runAddVotes init calls) := by
  induction calls with
  | nil => intro init h; exact h
  | cons c cs ih =>
      intro init h
      exact ih _ (add_vote_fst_nodup c.snap c.snapFail init c.voter c.vote_for h)

theorem addVoteUpdate_of_mem (cur : Option VoteItem) (voter : Int) (b : Bool)
    (hm : voter ∈ itemVotesFor cur ∨ voter ∈ itemVotesAgainst cur) :
    addVoteUpdate cur voter b = (cur, false) := by
  unfold addVoteUpdate
  rw [if_pos hm]

/-- C1: starting from any freshly created vote session (or any store state
without a duplicated voter), after any sequence of add_vote calls — each
seeing arbitrary, possibly stale reads, which over-approximates every
interleaving of concurrent callers — no voter id occurs more than once
across the union of votes_for and votes_against; and any add_vote call by a
voter already present in either list at the moment its atomic update runs
leaves the stored item unchanged and reports already_voted, whichever side
it votes and whatever its reads saw. -/
theorem add_vote_voter_at_most_once :
    (∀ (t mi iu : Int) (iun : Option String) (ifn : String) (tun : Option String)
        (tfn : String), votersNodup (some (create_vote_session t mi iu iun ifn tun tfn))) ∧
      (∀ (init : Option VoteItem) (calls : List VoteCall),
        votersNodup init → votersNodup (runAddVotes init calls)) ∧
      ∀ (snap snapFail cur : Option VoteItem) (voter : Int) (b : Bool),
        voter ∈ itemVotesFor cur ∨ voter ∈ itemVotesAgainst cur →
          (add_vote snap snapFail cur voter b).1 = cur ∧
            (add_vote snap snapFail cur voter b).2.already_voted = true := by
  refine ⟨?_, ?_, ?_⟩
  · intro t mi iu iun ifn tun tfn
    simp [votersNodup, create_vote_session, itemVotesFor, itemVotesAgainst]
  · intro init calls h
    exact runAddVotes_nodup calls init h
  · intro snap snapFail cur voter b hm
    unfold add_vote
    by_cases hs : voter ∈ (itemVotesFor snap).dedup ∨ voter ∈ (itemVotesAgainst snap).dedup
    · rw [if_pos hs]
      exact ⟨rfl, rfl⟩
    · rw [if_neg hs, addVoteUpdate_of_mem cur voter b hm]
      exact ⟨rfl, rfl⟩

/-- Witness for C1: a session created by initiator 5 for target 99; voter 6
votes for with a fresh read, then a duplicated call by voter 6 votes against
with a stale empty read; the invariant holds afterwards, and a direct
add_vote by the initiator 5 reports already_voted and changes nothing. -/
theorem add_vote_voter_at_most_once_witness :
    votersNodup (some (create_vote_session 99 7 5 none "Ann" none "Bob")) ∧
      votersNodup (runAddVotes (some (create_vote_session 99 7 5 none "Ann" none "Bob"))
        [⟨6, true, some (create_vote_session 99 7 5 none "Ann" none "Bob"), none⟩,
          ⟨6, false, none, none⟩]) ∧
      ((add_vote none none (some (create_vote_session 99 7 5 none "Ann" none "Bob"))
            5 true).1 = some (create_vote_session 99 7 5 none "Ann" none "Bob") ∧
        (add_vote none none (some (create_vote_session 99 7 5 none "Ann" none "Bob"))
            5 true).2.already_voted = true) :=
  ⟨add_vote_voter_at_most_once.1 99 7 5 none "Ann" none "Bob",
    add_vote_voter_at_most_once.2.1 (some (create_vote_session 99 7 5 none "Ann" none "Bob"))
      [⟨6, true, some (create_vote_session 99 7 5 none "Ann" none "Bob"), none⟩,
        ⟨6, false, none, none⟩] (by decide),
    add_vote_voter_at_most_once.2.2 none none
      (some (create_vote_session 99 7 5 none "Ann" none "Bob")) 5 true (by decide)⟩

/-- Python len() of a string, in characters. -/
def pyLen (s : String) : Nat := s.data.length

/-- Python string slicing s[n:], over the character list. -/
def pyDrop (s : String) (n : Nat) : String := String.mk (s.data.drop n)

/-- Python str.strip() with no argument, over the character list. -/
def pyStrip (s : String) : String :=
  String.mk (((s.data.dropWhile Char.isWhitespace).reverse.dropWhile Char.isWhitespace).reverse)

/-- Python str.startswith, over the character lists. -/
def pyStartsWith (s p : String) : Bool := p.data.isPrefixOf s.data

/-- Python str.isdigit for the ASCII payloads at hand: nonempty and all
digits. -/
def pyIsDigit (s : String) : Bool := !s.data.isEmpty && s.data.all Char.isDigit

/-- Python int() on a string of digits. -/
def pyToNat (s : String) : Nat :=
  s.data.foldl (fun n c => n * 10 + (c.toNat - 48)) 0

/-- VERIFY_PREFIX (services/init.py line 18), the callback payload head of
the verification button; the name is adjusted to verifyPrefixStr here. -/
def verifyPrefixStr : String := "verify_"

/-- Modelled from the spec: VOTEBAN_FOR_PREFIX is imported by handlers.py
(line 14) but defined nowhere under src (workerServicesExports); the spec
contract that the Ban button payload encodes the target user id, together
with the docstring of handlers.py, voteban_for_ followed by the user id
(lines 113-117), give this value. -/
def votebanForStr : String := "voteban_for_"

/-- Modelled from the spec: VOTEBAN_AGAINST_PREFIX is imported by
handlers.py (line 13) but defined nowhere under src; the Forgive button
payload per the same docstring. -/
def votebanAgainstStr : String := "voteban_against_"

/-- Modelled from the spec: VOTEBAN_THRESHOLD is imported by handlers.py
(line 16) but defined nowhere under src; the spec fixes the ban threshold as
a fixed constant, e.g. 15. -/
def VOTEBAN_THRESHOLD : Nat := 15

/-- Modelled from the spec: VOTEBAN_FORGIVE_THRESHOLD is imported by
handlers.py (line 15) but defined nowhere under src; the spec names a
forgive threshold without fixing its value, so a representative constant is
used.  No theorem depends on either threshold value. -/
def VOTEBAN_FORGIVE_THRESHOLD : Nat := 15

/-- One iteration of the member loop of handle_new_member (handlers.py lines
75-105): skip bots; otherwise restrict the member to can_send_messages
false, send the challenge message whose single inline button carries
verify_ and the member id, enqueue the 60-second timeout task when
bot.send_message returned a message id and the SQS repo is present, and
increment the join counter when the stats repo is present.  sendMsgId is the
message_id of the sent challenge message. -/
def processMember (chat_id : Option Int) (sendMsgId : Option Int)
    (hasSqsRepo hasStatsRepo : Bool) (m : TgUser) : List Effect :=
  if m.is_bot then []
  else
    [Effect.restrictMember chat_id m.id [("can_send_messages", false)],
      Effect.sendMessage chat_id (MsgText.translated "welcome_verification")
        (some [[verifyPrefixStr ++ strOfIntOpt m.id]])]
      ++ (match sendMsgId, hasSqsRepo with
          | some mid, true => [Effect.enqueueTimeout chat_id m.id mid 60]
          | _, _ => [])
      ++ (if hasStatsRepo then [Effect.incrementTotalJoins chat_id] else [])

/-- handle_new_member (handlers.py lines 68-109): the loop over
message.new_chat_members.  sendIds maps a member id to the message_id that
bot.send_message returns for the challenge message of that member. -/
def handle_new_member (chat_id : Option Int) (members : List TgUser)
    (sendIds : Option Int → Option Int) (hasSqsRepo hasStatsRepo : Bool) : List Effect :=
  (members.map fun m => processMember chat_id (sendIds m.id) hasSqsRepo hasStatsRepo m).flatten

/-- The C4 claim exactly as the specification states it, for one member:
the join handler restricts the member, sends the challenge message whose
button payload encodes the member id, creates the VerificationChallenge
record, and enqueues the 60-second timeout task.  This is the
wording of the specification, to be compared with what handle_new_member emits. -/
abbrev joinClaimStated (effs : List Effect) (chat uid : Option Int) (mid : Int) : Prop :=
  Effect.restrictMember chat uid [("can_send_messages", false)] ∈ effs ∧
    Effect.sendMessage chat (MsgText.translated "welcome_verification")
      (some [[verifyPrefixStr ++ strOfIntOpt uid]]) ∈ effs ∧
    Effect.createChallengeRecord chat uid ∈ effs ∧
    Effect.enqueueTimeout chat uid mid 60 ∈ effs

/-- Counterexample for C4: for the join of non-bot user 42 in chat 100, with
the challenge message sent as message 7 and both repos present, the claim as
stated fails, because handle_new_member never creates a
VerificationChallenge record (no store write of that kind exists anywhere in
the handler). -/
theorem join_handler_claim_counterexample :
    ¬ joinClaimStated
        (handle_new_member (some 100) [⟨some 42, false, none, some "Ann", none⟩]
          (fun _ => some 7) true true) (some 100) (some 42) 7 := by
  decide

theorem processMember_no_record (chat sid : Option Int) (hq hs : Bool) (x : TgUser)
    (c u : Option Int) : Effect.createChallengeRecord c u ∉ processMember chat sid hq hs x := by
  by_cases hb : x.is_bot
  · simp [processMember, hb]
  · rcases sid with _ | mid <;> cases hq <;> cases hs <;> simp [processMember, hb]

/-- C4 as amended: for every join update and every non-bot new member in it,
when bot.send_message returns a message id for the challenge message and the
SQS repo is wired, the join handler restricts the messaging
permissions, sends the challenge message whose inline button payload encodes
the user id of the member, and enqueues the delayed timeout-check task with the
fixed 60-second delay carrying chat id, user id and challenge message id;
but it creates no VerificationChallenge record — the muted platform status
itself is the only mark of a pending challenge. -/
theorem join_handler_amended (chat : Option Int) (members : List TgUser)
    (sendIds : Option Int → Option Int) (hasStatsRepo : Bool) (m : TgUser) (mid : Int)
    (hmem : m ∈ members) (hbot : m.is_bot = false) (hsend : sendIds m.id = some mid) :
    Effect.restrictMember chat m.id [("can_send_messages", false)] ∈
        handle_new_member chat members sendIds true hasStatsRepo ∧
      Effect.sendMessage chat (MsgText.translated "welcome_verification")
        (some [[verifyPrefixStr ++ strOfIntOpt m.id]]) ∈
        handle_new_member chat members sendIds true hasStatsRepo ∧
      Effect.enqueueTimeout chat m.id mid 60 ∈
        handle_new_member chat members sendIds true hasStatsRepo ∧
      ∀ c u, Effect.createChallengeRecord c u ∉
        handle_new_member chat members sendIds true hasStatsRepo := by
  have hsub : processMember chat (sendIds m.id) true hasStatsRepo m ∈
      members.map fun x => processMember chat (sendIds x.id) true hasStatsRepo x :=
    List.mem_map_of_mem _ hmem
  have hin : ∀ e, e ∈ processMember chat (sendIds m.id) true hasStatsRepo m →
      e ∈ handle_new_member chat members sendIds true hasStatsRepo := by
    intro e he
    exact List.mem_flatten.mpr ⟨_, hsub, he⟩
  refine ⟨hin _ ?_, hin _ ?_, hin _ ?_, ?_⟩
  · simp [processMember, hbot, hsend]
  · simp [processMember, hbot, hsend]
  · simp [processMember, hbot, hsend]
  · intro c u hrec
    rcases List.mem_flatten.mp hrec with ⟨l, hl, hel⟩
    rcases List.mem_map.mp hl with ⟨x, _, rfl⟩
    exact processMember_no_record chat (sendIds x.id) true hasStatsRepo x c u hel

/-- Witness for C4 as amended: the join of non-bot user 42 in chat 100, the
challenge message sent as message 7. -/
theorem join_handler_amended_witness :
    Effect.restrictMember (some 100) (some 42) [("can_send_messages", false)] ∈
        handle_new_member (some 100) [⟨some 42, false, none, some "Ann", none⟩]
          (fun _ => some 7) true true ∧
      Effect.sendMessage (some 100) (MsgText.translated "welcome_verification")
        (some [[verifyPrefixStr ++ strOfIntOpt (some 42)]]) ∈
        handle_new_member (some 100) [⟨some 42, false, none, some "Ann", none⟩]
          (fun _ => some 7) true true ∧
      Effect.enqueueTimeout (some 100) (some 42) 7 60 ∈
        handle_new_member (some 100) [⟨some 42, false, none, some "Ann", none⟩]
          (fun _ => some 7) true true ∧
      ∀ c u, Effect.createChallengeRecord c u ∉
        handle_new_member (some 100) [⟨some 42, false, none, some "Ann", none⟩]
          (fun _ => some 7) true true :=
  join_handler_amended (some 100) [⟨some 42, false, none, some "Ann", none⟩]
    (fun _ => some 7) true ⟨some 42, false, none, some "Ann", none⟩ 7
    (by decide) rfl rfl

/-- The per-callback state handle_verification reads from its Context. -/
structure CallbackCtx where
  callback_query_id : Option String
  callback_data : String
  chat_id : Option Int
  user_id : Option Int
  message_id : Option Int
deriving DecidableEq

/-- An answer_callback_query call guarded by if ctx.callback_query_id, the
recurring pattern of handlers.py. -/
def guardedAnswer (cqid : Option String) (t : MsgText) (alert : Bool) : List Effect :=
  if truthyStrOpt cqid then [Effect.answerCallback cqid (some t) alert] else []

/-- The full-permission dict of handlers.py lines 145-156. -/
def fullPermissions : List (String × Bool) :=
  [("can_send_messages", true), ("can_send_audios", true), ("can_send_documents", true),
    ("can_send_photos", true), ("can_send_videos", true), ("can_send_video_notes", true),
    ("can_send_voice_notes", true), ("can_send_polls", true),
    ("can_send_other_messages", true), ("can_add_web_page_previews", true)]

/-- handle_verification (handlers.py lines 111-368).  deleteOk tells whether
the best-effort bot.delete_message succeeds; hasStatsRepo whether
ctx.stats_repo is set; store is the vote-session store, returned so that
writes to it would be visible.  The verify_ branch is embedded in full.  In
the voteban branch, after the payload and chat checks, line 193 evaluates
not ctx.vote_repo: context.py defines no vote_repo attribute (contextAttrs),
so the lookup raises AttributeError, which the except at lines 362-368
answers with the literal text Verification failed. — the add_vote call, both
threshold comparisons, the kick and the session deletion (lines 201-295) are
never reached, and the store is never touched.  The guarded empty branch
mirrors the dead code path. -/
def handle_verification (ctx : CallbackCtx) (deleteOk hasStatsRepo : Bool)
    (store : Option VoteItem) : List Effect × Option VoteItem :=
  if pyStartsWith ctx.callback_data verifyPrefixStr then
    let payload := pyStrip (pyDrop ctx.callback_data (pyLen verifyPrefixStr))
    if ¬ pyIsDigit payload then
      (guardedAnswer ctx.callback_query_id (MsgText.translated "invalid_data") false, store)
    else
      let target : Int := (pyToNat payload : Nat)
      if ctx.user_id ≠ some target then
        (guardedAnswer ctx.callback_query_id (MsgText.translated "only_user_may_verify") true,
          store)
      else if ¬ truthyIntOpt ctx.chat_id ∨ ctx.message_id = none then
        (guardedAnswer ctx.callback_query_id (MsgText.translated "error_occurred") false, store)
      else
        ([Effect.restrictMember ctx.chat_id (some target) fullPermissions,
          Effect.answerCallback ctx.callback_query_id
            (some (MsgText.translated "verification_successful")) false,
          Effect.deleteMessage ctx.chat_id (ctx.message_id.getD 0)]
          ++ (if deleteOk then []
              else [Effect.logError "Failed to delete verification message"])
          ++ [Effect.sendMessage ctx.chat_id (MsgText.translated "welcome_verified") none]
          ++ (if hasStatsRepo then [Effect.incrementVerifiedUsers ctx.chat_id] else []),
          store)
  else if pyStartsWith ctx.callback_data votebanForStr ∨
      pyStartsWith ctx.callback_data votebanAgainstStr then
    let pfx := if pyStartsWith ctx.callback_data votebanForStr then votebanForStr
      else votebanAgainstStr
    let payload := pyStrip (pyDrop ctx.callback_data (pyLen pfx))
    if ¬ pyIsDigit payload then
      (guardedAnswer ctx.callback_query_id (MsgText.translated "invalid_data") false, store)
    else if ¬ truthyIntOpt ctx.chat_id then
      (guardedAnswer ctx.callback_query_id (MsgText.translated "error_occurred") false, store)
    else
      if "vote_repo" ∈ contextAttrs then
        ([], store)
      else
        (guardedAnswer ctx.callback_query_id (MsgText.raw "Verification failed.") false, store)
  else
    (guardedAnswer ctx.callback_query_id (MsgText.translated "unknown_action") false, store)

/-- A vote session one distinct for-vote below the modelled ban threshold of
15: voters 1 to 14 in votes_for. -/
def sessionNearBan : VoteItem :=
  ⟨some 99, some 555, some 1, none, some "Ivan", none, some "Tara",
    [1, 2, 3, 4, 5, 6, 7, 8, 9, 10, 11, 12, 13, 14], []⟩

/-- C3: the claim says the ban-threshold comparison runs before the
forgive-threshold comparison on every vote that changes the counts, and
that a fifteenth distinct for-vote causes the Banned transition exactly
once.  Evaluating the embedded handle_verification at such a vote (voter 42
presses Ban on target 99 in chat 100 while the stored session holds
fourteen distinct for-votes) shows no vote is ever added and no threshold
comparison ever runs: the handler answers Verification failed. — the
AttributeError from the undefined ctx.vote_repo — the store is unchanged,
and no kick happens. -/
theorem vote_threshold_branch_unreachable :
    handle_verification ⟨some "cb7", "voteban_for_99", some 100, some 42, some 555⟩ true true
        (some sessionNearBan) =
      ([Effect.answerCallback (some "cb7") (some (MsgText.raw "Verification failed.")) false],
        some sessionNearBan) ∧
      countKicks (handle_verification ⟨some "cb7", "voteban_for_99", some 100, some 42, some 555⟩
        true true (some sessionNearBan)).1 = 0 ∧
      "vote_repo" ∉ contextAttrs := by
  refine ⟨by decide, by decide, by decide⟩

/-- handle_voteban (handlers.py lines 430-535).  Its first statement
(line 435) reads ctx.reply_to_message, an attribute context.py never defines
(contextAttrs), so every call raises AttributeError immediately; the except
at lines 533-535 replies with the localized generic error text.  None of the
rejection checks (lines 435-462) ever runs, and no VoteSession is ever
created — note also that even with the attribute present, Context.reply
returns None (context.py line 80), so the sent_message guard at line 512
could never pass.  The store is returned untouched; the guarded empty branch
mirrors the dead body. -/
def handle_voteban (chat_id : Option Int) (store : Option VoteItem) :
    List Effect × Option VoteItem :=
  if "reply_to_message" ∈ contextAttrs then
    ([], store)
  else
    (ctxReplyEffect chat_id (MsgText.translated "error_occurred") none, store)

/-- C6: the claim says a /voteban that passes the rejection checks sends the
vote message with Ban/Forgive buttons and creates the VoteSession with the
vote of the initiator pre-counted.  Evaluating the embedded handle_voteban for a
well-formed /voteban reply in chat 100 with an empty store shows it instead
sends only the generic error reply — the AttributeError from the undefined
ctx.reply_to_message — creates no session, and emits no message carrying
any inline markup at all. -/
theorem voteban_creates_no_session :
    handle_voteban (some 100) none =
        ([Effect.sendMessage (some 100) (MsgText.translated "error_occurred") none], none) ∧
      ∀ (t : MsgText) (markup : List (List String)),
        Effect.sendMessage (some 100) t (some markup) ∉ (handle_voteban (some 100) none).1 := by
  refine ⟨by decide, ?_⟩
  intro t markup hmem
  simp [handle_voteban, contextAttrs, ctxReplyEffect, truthyIntOpt] at hmem

/-- C7: the claim says a /voteban with no reply target (or a self, bot or
admin target) draws exactly the matching rejection reply and no state
change.  Evaluating the embedded handle_voteban for a no-reply /voteban in
chat 200 shows the store is indeed unchanged, but the reply sent is the
generic error text, not the voteban_usage rejection: the rejection checks
are dead code behind the AttributeError of line 435 (and no bot-target check
exists in the body at all). -/
theorem voteban_rejection_replies_never_sent :
    handle_voteban (some 200) none =
        ([Effect.sendMessage (some 200) (MsgText.translated "error_occurred") none], none) ∧
      Effect.sendMessage (some 200) (MsgText.translated "voteban_usage") none ∉
        (handle_voteban (some 200) none).1 := by
  refine ⟨by decide, by decide⟩

end Zerde
